import Mathlib

/-!
Verification of the EldenRing_Dashboard frontend core against its
natural-language specification.

The development shallowly embeds the JavaScript/React code:

* a small model of JavaScript runtime values (JSVal) with truthiness and
  strict equality, used where the source relies on coercion;
* the dashboard boss carousels and the tier-distribution aggregation
  (features/dashboard/BossCarousels.jsx and AnalyticsCharts.jsx);
* the useFetchData hook as an explicit state machine on records
  (hooks/useFetchData.js);
* the explorer-page pagination and filter-handling logic
  (pages/public/ExploreBossesPage.jsx and the filter components);
* the dashboard aggregator (pages/public/DashboardPage.jsx);
* the HTTP client configuration (lib/api.js).
-/

set_option autoImplicit false

/-- Model of a JavaScript runtime value, restricted to the shapes the
dashboard code can actually receive: undefined, null, booleans, (integer)
numbers and strings. -/
inductive JSVal where
  | undef
  | null
  | bool (b : Bool)
  | num (n : Int)
  | str (s : String)
deriving DecidableEq, Repr

/-- JavaScript truthiness: undefined, null, false, 0 and the empty string
are falsy; everything else is truthy. -/
def jsTruthy : JSVal → Bool
  | JSVal.undef => false
  | JSVal.null => false
  | JSVal.bool b => b
  | JSVal.num n => n != 0
  | JSVal.str s => s != ""

/-- The JavaScript logical-not operator: coerces to boolean and negates. -/
def jsNot (v : JSVal) : JSVal := JSVal.bool (!(jsTruthy v))

/-- JavaScript strict equality on our value model: values of
different runtime types are never strictly equal. -/
def jsStrictEq : JSVal → JSVal → Bool
  | JSVal.undef, JSVal.undef => true
  | JSVal.null, JSVal.null => true
  | JSVal.bool a, JSVal.bool b => a == b
  | JSVal.num a, JSVal.num b => a == b
  | JSVal.str a, JSVal.str b => a == b
  | _, _ => false

/-- JavaScript coercion of a value to an object property key. -/
def jsKeyString : JSVal → String
  | JSVal.undef => "undefined"
  | JSVal.null => "null"
  | JSVal.bool b => if b then "true" else "false"
  | JSVal.num n => toString n
  | JSVal.str s => s

/-- A boss record as consumed by the dashboard components.  The fields the
code inspects dynamically are kept as JSVal since the payload is
duck-typed. -/
structure Boss where
  id : String
  name : String
  boss_tier : JSVal
  has_great_rune : JSVal
  has_remembrance : JSVal
deriving DecidableEq, Repr

/-- BossCarousels.jsx line 43: the great-rune carousel keeps the bosses
satisfying the JavaScript test  !!boss.has_great_rune === true. -/
def greatRuneBosses (bossesArray : List Boss) : List Boss :=
  bossesArray.filter
    (fun boss => jsStrictEq (jsNot (jsNot boss.has_great_rune)) (JSVal.bool true))

/-- BossCarousels.jsx line 44: the remembrance carousel keeps the bosses
satisfying  !!boss.has_remembrance === true. -/
def remembranceBosses (bossesArray : List Boss) : List Boss :=
  bossesArray.filter
    (fun boss => jsStrictEq (jsNot (jsNot boss.has_remembrance)) (JSVal.bool true))

/-- AnalyticsCharts.jsx line 87: the grouping key of a boss is
boss.boss_tier || 'Unknown' — any falsy tier value falls back to the
sentinel, and the (truthy) value is coerced to a property key. -/
def tierKey (boss : Boss) : String :=
  if jsTruthy boss.boss_tier then jsKeyString boss.boss_tier else "Unknown"

/-- One step of  bossTierCounts[tier] = (bossTierCounts[tier] || 0) + 1
on an insertion-ordered association list, mirroring the insertion-order
semantics of string-keyed JavaScript objects. -/
def bumpCount : List (String × Nat) → String → List (String × Nat)
  | [], k => [(k, 1)]
  | (k', n) :: rest, k =>
      if k' = k then (k', n + 1) :: rest else (k', n) :: bumpCount rest k

/-- AnalyticsCharts.jsx lines 82-97: fold the boss list into per-tier
counts; the final Object.keys map just re-labels each entry as a
name/value pair, which the association list already is. -/
def processBossTierData (bossesList : List Boss) : List (String × Nat) :=
  bossesList.foldl (fun counts boss => bumpCount counts (tierKey boss)) []

/-- The count recorded for a given key (0 when the key is absent); keys
are unique in the lists bumpCount builds, so the first occurrence is the
occurrence. -/
def countOf : List (String × Nat) → String → Nat
  | [], _ => 0
  | (k', n) :: rest, k => if k' = k then n else countOf rest k

/-- Sum of all recorded counts. -/
def sumCounts (counts : List (String × Nat)) : Nat :=
  (counts.map Prod.snd).sum

/-- The state held by the useFetchData hook (hooks/useFetchData.js
lines 4-6). -/
structure FetchState (α ε : Type) where
  data : Option α
  loading : Bool
  error : Option ε
deriving DecidableEq, Repr

/-- Initial hook state: useState(null), useState(false), useState(null). -/
def initialState {α ε : Type} : FetchState α ε :=
  { data := none, loading := false, error := none }

/-- The synchronous prefix of execute (useFetchData.js lines 9-10):
setLoading(true); setError(null) — run before the operation starts. -/
def executeStart {α ε : Type} (s : FetchState α ε) : FetchState α ε :=
  { s with loading := true, error := none }

/-- The settling suffix of execute (useFetchData.js lines 11-18): on
success setData(result), on failure setError(err), and in both cases the
finally block runs setLoading(false). -/
def executeSettle {α ε : Type} (s : FetchState α ε) (r : Except ε α) : FetchState α ε :=
  match r with
  | Except.ok v => { s with data := some v, loading := false }
  | Except.error e => { s with error := some e, loading := false }

/-- A full, uninterleaved run of execute on an operation that settles
with result r. -/
def execute {α ε : Type} (s : FetchState α ε) (r : Except ε α) : FetchState α ε :=
  executeSettle (executeStart s) r

/-- States of the hook reachable from the initial state by starting and
settling execute calls (settling from any reachable state, since
overlapping calls are not coordinated). -/
inductive Reachable {α ε : Type} : FetchState α ε → Prop where
  | init : Reachable initialState
  | start (s : FetchState α ε) : Reachable s → Reachable (executeStart s)
  | settle (s : FetchState α ε) (r : Except ε α) :
      Reachable s → Reachable (executeSettle s r)

/-- How many of the three conditions loading / data-present /
error-present hold in a state. -/
def currentCount {α ε : Type} (s : FetchState α ε) : Nat :=
  (if s.loading then 1 else 0) + (if s.data.isSome then 1 else 0) +
    (if s.error.isSome then 1 else 0)

/-- ExploreBossesPage.jsx line 56: currentPage = Math.floor(skip/limit)+1
(natural-number division is floor division). -/
def currentPage (skip limit : Nat) : Nat :=
  skip / limit + 1

/-- ExploreBossesPage.jsx line 57: totalItems = data?.total || 0 — the
optional chain yields undefined when no payload has arrived, and a falsy
total (absent or 0) falls back to 0. -/
def totalItemsOf (total : Option Nat) : Nat :=
  match total with
  | some t => t
  | none => 0

/-- ExploreBossesPage.jsx line 58: totalPages = Math.ceil(totalItems/limit),
expressed on naturals. -/
def totalPages (total limit : Nat) : Nat :=
  (total + limit - 1) / limit

/-- ExploreBossesPage.jsx line 67: the pagination block renders only when
totalPages > 1. -/
def showPagination (total limit : Nat) : Bool :=
  totalPages total limit > 1

/-- ExploreBossesPage.jsx line 71: the Previous button is disabled iff
currentPage === 1. -/
def prevDisabled (skip limit : Nat) : Bool :=
  currentPage skip limit == 1

/-- ExploreBossesPage.jsx line 81: the Next button is disabled iff
currentPage === totalPages. -/
def nextDisabled (skip limit total : Nat) : Bool :=
  currentPage skip limit == totalPages total limit

/-- ExploreBossesPage.jsx line 35: a change to page newPage sets
newSkip = (newPage - 1) * limit. -/
def pageChangeSkip (newPage limit : Nat) : Nat :=
  (newPage - 1) * limit

/-- Pagination state of an explorer page (ExploreBossesPage.jsx line 10). -/
structure Pagination where
  skip : Nat
  limit : Nat
deriving DecidableEq, Repr

/-- The filter state of an explorer page: at most a name filter, as emitted
by the filter components. -/
def Filters : Type := Option String

/-- Combined page state {filters, pagination}. -/
structure ExploreState where
  filters : Option String
  pagination : Pagination
deriving DecidableEq, Repr

/-- Query parameters of one fetch issued by a page: the spread
{...filters, skip, limit}. -/
structure FetchParams where
  name : Option String
  skip : Nat
  limit : Nat
deriving DecidableEq, Repr

/-- ExploreBossesPage.jsx lines 25-32 (handleFilterChange): replace the
filters, reset pagination to skip 0 / limit 20, and issue a fetch with the
new filters spread together with skip 0 and limit 20.  Returns the new
page state and the parameters of the fetch issued for this submission. -/
def handleFilterChange (_s : ExploreState) (newFilters : Option String) :
    ExploreState × FetchParams :=
  ({ filters := newFilters, pagination := { skip := 0, limit := 20 } },
   { name := newFilters, skip := 0, limit := 20 })

/-- ExploreBossesPage.jsx lines 34-41 (handlePageChange): set
newSkip = (newPage - 1) * limit and fetch with the current filters at the
new offset. -/
def handlePageChange (s : ExploreState) (newPage : Nat) :
    ExploreState × FetchParams :=
  let newSkip := pageChangeSkip newPage s.pagination.limit
  ({ s with pagination := { skip := newSkip, limit := s.pagination.limit } },
   { name := s.filters, skip := newSkip, limit := s.pagination.limit })

/-- The JavaScript trim method modelled on the character list: remove
leading and trailing whitespace. -/
def jsTrim (s : String) : String :=
  String.mk (((s.data.dropWhile Char.isWhitespace).reverse.dropWhile
    Char.isWhitespace).reverse)

/-- BossFilter.jsx / ArmorFilter.jsx lines 11-14 (handleSearch): emit
{name: searchTerm.trim()} when the trimmed term is truthy (a non-empty
string), otherwise the empty filter object. -/
def handleSearch (searchTerm : String) : Option String :=
  if jsTrim searchTerm == "" then none else some (jsTrim searchTerm)

/-- BossFilter.jsx / ArmorFilter.jsx lines 22-25 (handleClear): reset the
local text to the empty string and emit the empty filter object.  The pair
is (emitted filter, new local text). -/
def handleClear : Option String × String :=
  (none, "")

/-- A paged response envelope {items, total}. -/
structure PageEnvelope (α : Type) where
  items : List α
  total : Nat
deriving DecidableEq, Repr

/-- A weapon record (only the fields the dashboard reads). -/
structure Weapon where
  id : String
  name : String
deriving DecidableEq, Repr

/-- An armor record (only the fields the dashboard reads). -/
structure Armor where
  id : String
  name : String
deriving DecidableEq, Repr

/-- A class record (only the fields the dashboard reads). -/
structure ClassDef where
  id : String
  name : String
deriving DecidableEq, Repr

/-- One entry of the precomputed top-damage list of the weapon statistics
payload. -/
structure TopDamageEntry where
  name : String
  damage : Int
deriving DecidableEq, Repr

/-- The weapon statistics payload. -/
structure WeaponStats where
  top_damage : List TopDamageEntry
deriving DecidableEq, Repr

/-- The joined payload built by fetchDashboardData on success
(DashboardPage.jsx lines 26-33). -/
structure DashboardData where
  totalWeapons : Nat
  totalBosses : Nat
  totalArmors : Nat
  totalClasses : Nat
  bosses : List Boss
  weaponStats : WeaponStats
deriving DecidableEq, Repr

/-- DashboardPage.jsx lines 17-34 (fetchDashboardData): Promise.all over
the five requests — if any of them rejects the joined operation rejects;
if all succeed the totals are taken directly from the total fields and the
boss items and statistics payload are passed through. -/
def fetchDashboardData {ε : Type}
    (weaponsRes : Except ε (PageEnvelope Weapon))
    (bossesRes : Except ε (PageEnvelope Boss))
    (armorsRes : Except ε (PageEnvelope Armor))
    (classesRes : Except ε (PageEnvelope ClassDef))
    (weaponStatsRes : Except ε WeaponStats) : Except ε DashboardData := do
  let w ← weaponsRes
  let b ← bossesRes
  let a ← armorsRes
  let c ← classesRes
  let ws ← weaponStatsRes
  pure { totalWeapons := w.total, totalBosses := b.total,
         totalArmors := a.total, totalClasses := c.total,
         bosses := b.items, weaponStats := ws }

/-- Whether a settled promise result is a rejection. -/
def rejected {ε α : Type} : Except ε α → Bool
  | Except.error _ => true
  | Except.ok _ => false

/-- What the dashboard page renders: the loading spinner, a single error
view, or the content with its KPI cards and (when data is present) the
charts and carousels. -/
inductive DashboardView (ε : Type) where
  | spinner
  | errorView (e : ε)
  | content (kpis : List (String × Nat)) (charts : Bool) (carousels : Bool)
deriving DecidableEq, Repr

/-- DashboardPage.jsx lines 39-74: loading renders only the spinner; an
error renders only the error line; otherwise the KPI list is derived from
the data and the charts and carousels render only when data is present. -/
def renderDashboard {ε : Type} (s : FetchState DashboardData ε) : DashboardView ε :=
  if s.loading then DashboardView.spinner
  else
    match s.error with
    | some e => DashboardView.errorView e
    | none =>
        match s.data with
        | some d =>
            DashboardView.content
              [("Total de Armas", d.totalWeapons),
               ("Total de Jefes", d.totalBosses),
               ("Total de Armaduras", d.totalArmors),
               ("Total de Clases", d.totalClasses)] true true
        | none => DashboardView.content [] false false

/-- Whether a dashboard view is the single error state — which by
construction carries no KPI cards, charts or carousels. -/
def isErrorView {ε : Type} : DashboardView ε → Bool
  | DashboardView.errorView _ => true
  | _ => false

/-- The configured HTTP client (lib/api.js lines 7-12): a base URL taken
verbatim from the environment value and a fixed JSON content type. -/
structure ApiClient where
  baseURL : Option String
  contentType : String
deriving DecidableEq, Repr

/-- lib/api.js line 4 and 7: API_BASE_URL = import.meta.env.VITE_API_BASE_URL
with no presence check, then axios.create with that value.  The module
constant is bound once at startup and never reassigned. -/
def createApi (env : Option String) : ApiClient :=
  { baseURL := env, contentType := "application/json" }

/-- Module initialization of lib/api.js viewed as a fallible computation:
the source has no failure path, so initialization always succeeds with the
client createApi env, whatever the environment holds. -/
def initApi (env : Option String) : Except String ApiClient :=
  Except.ok (createApi env)

/-- Modelled from the spec: the configuration contract of section 6 — the
backend base URL read once at startup, with absence failing fast rather
than silently defaulting.  This definition follows the spec's words, for
comparison with the source's createApi / initApi. -/
def createApiSpec (env : Option String) : Except String ApiClient :=
  match env with
  | none => Except.error "missing backend base URL"
  | some u => Except.ok { baseURL := some u, contentType := "application/json" }

theorem jsStrictEq_doubleNot_true (v : JSVal) :
    jsStrictEq (jsNot (jsNot v)) (JSVal.bool true) = jsTruthy v := by
  cases v <;> simp [jsNot, jsStrictEq, jsTruthy]

/-- C1 (counterexample): a boss whose has_great_rune field is the string
"true" and whose has_remembrance field is the number 1 — neither of them
the boolean true — is nonetheless included in both carousels, because the
source test !!flag === true reduces to plain truthiness. -/
theorem carousel_admits_nonboolean_truthy :
    (⟨"b1", "Margit", JSVal.str "demigod", JSVal.str "true", JSVal.num 1⟩ : Boss) ∈
      greatRuneBosses [⟨"b1", "Margit", JSVal.str "demigod", JSVal.str "true", JSVal.num 1⟩]
    ∧ JSVal.str "true" ≠ JSVal.bool true
    ∧ (⟨"b1", "Margit", JSVal.str "demigod", JSVal.str "true", JSVal.num 1⟩ : Boss) ∈
      remembranceBosses [⟨"b1", "Margit", JSVal.str "demigod", JSVal.str "true", JSVal.num 1⟩]
    ∧ JSVal.num 1 ≠ JSVal.bool true := by
  decide

/-- C1 (amended): a boss record is included in the great-rune carousel iff
its has_great_rune field is truthy, and in the remembrance carousel iff
its has_remembrance field is truthy — defined falsy values are excluded,
but non-boolean truthy values such as the string "true" or the number 1
do qualify. -/
theorem carousel_membership_iff_truthy (bs : List Boss) (b : Boss) :
    (b ∈ greatRuneBosses bs ↔ b ∈ bs ∧ jsTruthy b.has_great_rune = true)
    ∧ (b ∈ remembranceBosses bs ↔ b ∈ bs ∧ jsTruthy b.has_remembrance = true) := by
  constructor <;>
    simp [greatRuneBosses, remembranceBosses, List.mem_filter, jsStrictEq_doubleNot_true]

theorem carousel_membership_iff_truthy_witness :
    (⟨"b2", "Godrick", JSVal.str "demigod", JSVal.bool true, JSVal.bool true⟩ : Boss) ∈
      greatRuneBosses [⟨"b2", "Godrick", JSVal.str "demigod", JSVal.bool true, JSVal.bool true⟩] :=
  (carousel_membership_iff_truthy
      [⟨"b2", "Godrick", JSVal.str "demigod", JSVal.bool true, JSVal.bool true⟩]
      ⟨"b2", "Godrick", JSVal.str "demigod", JSVal.bool true, JSVal.bool true⟩).1.mpr
    (by decide)

/-- C2: execute transitions the hook state to loading with the error
cleared and the data untouched before the operation runs; a successful
operation settles to loading false, data the result, error absent; a
failing operation settles to loading false, data unchanged from before
the call, error the thrown value. -/
theorem useFetchData_execute_contract {α ε : Type} (s : FetchState α ε) (v : α) (e : ε) :
    (executeStart s).loading = true
    ∧ (executeStart s).error = none
    ∧ (executeStart s).data = s.data
    ∧ execute s (Except.ok v) = { data := some v, loading := false, error := none }
    ∧ execute s (Except.error e) = { data := s.data, loading := false, error := some e } :=
  ⟨rfl, rfl, rfl, rfl, rfl⟩

/-- C10: execute is modelled as a total function on the settled outcome of
the operation — every failure is absorbed into the error field rather than
escaping to the caller — and the finally clause resets loading to false
in whichever way the operation settles. -/
theorem execute_absorbs_failure_resets_loading {α ε : Type}
    (s : FetchState α ε) (r : Except ε α) (v : α) (e : ε) :
    (execute s r).loading = false
    ∧ (execute s (Except.error e)).error = some e
    ∧ (execute s (Except.error e)).data = s.data
    ∧ (execute s (Except.ok v)).data = some v := by
  refine ⟨?_, rfl, rfl, rfl⟩
  cases r <;> rfl

/-- C3 (counterexample): the state reached from the initial state by an
execute call that succeeds with 0 followed by an execute call that fails
with "boom" is reachable, and in it two of the three conditions hold at
once: the stale data is still present while the error is present. -/
theorem fetch_state_two_conditions_current :
    Reachable (execute (execute (initialState : FetchState Nat String)
        (Except.ok 0)) (Except.error "boom"))
    ∧ currentCount (execute (execute (initialState : FetchState Nat String)
        (Except.ok 0)) (Except.error "boom")) = 2 := by
  constructor
  · exact Reachable.settle _ _ (Reachable.start _
      (Reachable.settle _ _ (Reachable.start _ Reachable.init)))
  · decide

/-- C3 (amended): in every reachable state of the hook, loading and
error-present are mutually exclusive; data-present is not exclusive with
either of them (stale data persists), and the initial state satisfies
none of the three conditions. -/
theorem useFetchData_loading_excludes_error {α ε : Type}
    (s : FetchState α ε) (h : Reachable s) :
    ¬(s.loading = true ∧ s.error.isSome = true) := by
  induction h with
  | init => simp [initialState]
  | start s hs ih => simp [executeStart]
  | settle s r hs ih => cases r <;> simp [executeSettle]

theorem useFetchData_loading_excludes_error_witness :
    ¬((initialState : FetchState Nat String).loading = true
      ∧ (initialState : FetchState Nat String).error.isSome = true) :=
  useFetchData_loading_excludes_error initialState Reachable.init

theorem sumCounts_bumpCount (c : List (String × Nat)) (k : String) :
    sumCounts (bumpCount c k) = sumCounts c + 1 := by
  induction c with
  | nil => rfl
  | cons p rest ih =>
      obtain ⟨q, n⟩ := p
      by_cases hk : q = k
      · simp [bumpCount, hk, sumCounts]
        omega
      · simp [bumpCount, hk, sumCounts] at ih ⊢
        omega

theorem countOf_bumpCount (c : List (String × Nat)) (k k' : String) :
    countOf (bumpCount c k) k' = countOf c k' + (if k = k' then 1 else 0) := by
  induction c with
  | nil =>
      by_cases h : k = k' <;> simp [bumpCount, countOf, h]
  | cons p rest ih =>
      obtain ⟨q, n⟩ := p
      by_cases h0 : q = k
      · subst h0
        by_cases h1 : q = k' <;> simp [bumpCount, countOf, h1]
      · by_cases h1 : q = k'
        · subst h1
          have hk : ¬k = q := fun hh => h0 hh.symm
          simp [bumpCount, countOf, h0, hk]
        · simp [bumpCount, countOf, h0, h1, ih]

theorem countOf_tier_foldl (bs : List Boss) (c : List (String × Nat)) (k : String) :
    countOf (bs.foldl (fun counts boss => bumpCount counts (tierKey boss)) c) k
      = countOf c k + (bs.filter (fun boss => tierKey boss == k)).length := by
  induction bs generalizing c with
  | nil => simp
  | cons b rest ih =>
      simp only [List.foldl_cons, List.filter_cons]
      rw [ih, countOf_bumpCount]
      by_cases h : tierKey b = k
      · simp [h]
        omega
      · simp [h]

theorem sumCounts_tier_foldl (bs : List Boss) (c : List (String × Nat)) :
    sumCounts (bs.foldl (fun counts boss => bumpCount counts (tierKey boss)) c)
      = sumCounts c + bs.length := by
  induction bs generalizing c with
  | nil => simp
  | cons b rest ih =>
      simp only [List.foldl_cons, List.length_cons]
      rw [ih, sumCounts_bumpCount]
      omega

/-- C9 (amended): the tier distribution counts, for every key, exactly the
bosses whose grouping key — the tier value when truthy, the sentinel
Unknown when the tier is missing or falsy — equals that key, and the sum
of all group counts equals the length of the input list. -/
theorem processBossTierData_counts (bs : List Boss) (k : String) :
    countOf (processBossTierData bs) k
      = (bs.filter (fun boss => tierKey boss == k)).length
    ∧ sumCounts (processBossTierData bs) = bs.length := by
  constructor
  · simpa [countOf] using countOf_tier_foldl bs [] k
  · simpa [sumCounts] using sumCounts_tier_foldl bs []

/-- C9 (counterexample): a boss whose boss_tier is present but equal to
the empty string — neither missing nor absent — is counted under the
sentinel Unknown, and no group is keyed by its actual tier value. -/
theorem tier_sentinel_captures_empty_string :
    processBossTierData
        [⟨"b3", "Nameless King", JSVal.str "", JSVal.bool false, JSVal.bool false⟩]
      = [("Unknown", 1)]
    ∧ JSVal.str "" ≠ JSVal.undef
    ∧ JSVal.str "" ≠ JSVal.null
    ∧ countOf (processBossTierData
        [⟨"b3", "Nameless King", JSVal.str "", JSVal.bool false, JSVal.bool false⟩]) ""
      = 0 := by
  decide

theorem totalPages_le_of_le (total limit m : Nat) (hl : 0 < limit)
    (hm : total ≤ m * limit) : totalPages total limit ≤ m := by
  unfold totalPages
  rw [Nat.div_le_iff_le_mul_add_pred hl]
  have hm' : total ≤ limit * m := Nat.mul_comm m limit ▸ hm
  omega

theorem le_totalPages_mul (total limit : Nat) (hl : 0 < limit) :
    total ≤ totalPages total limit * limit := by
  unfold totalPages
  have h1 := Nat.div_add_mod (total + limit - 1) limit
  have h2 := Nat.mod_lt (total + limit - 1) hl
  rw [Nat.mul_comm]
  omega

theorem totalPages_zero (limit : Nat) (hl : 0 < limit) : totalPages 0 limit = 0 := by
  unfold totalPages
  apply Nat.div_eq_of_lt
  omega

theorem totalPages_pos (total limit : Nat) (hl : 0 < limit) (ht : 0 < total) :
    0 < totalPages total limit :=
  Nat.div_pos (by omega) hl

theorem currentPage_pageChangeSkip (n limit : Nat) (hl : 0 < limit) (hn : 1 ≤ n) :
    currentPage (pageChangeSkip n limit) limit = n := by
  unfold currentPage pageChangeSkip
  rw [Nat.mul_div_cancel _ hl]
  omega

/-- C4: the derived page values satisfy currentPage = floor(skip/limit)+1
and totalPages = ceil(total/limit) — the least page count covering total
items; a change to page n sets skip so that the page becomes n; total 0
gives zero pages and hides the pagination controls; Previous is disabled
on page 1 and Next on the last page. -/
theorem explorer_pagination_contract (skip limit total n : Nat)
    (hl : 0 < limit) (hn : 1 ≤ n) :
    currentPage skip limit = skip / limit + 1
    ∧ currentPage (pageChangeSkip n limit) limit = n
    ∧ total ≤ totalPages total limit * limit
    ∧ (∀ m : Nat, total ≤ m * limit → totalPages total limit ≤ m)
    ∧ (total = 0 → totalPages total limit = 0 ∧ showPagination total limit = false)
    ∧ prevDisabled (pageChangeSkip 1 limit) limit = true
    ∧ (0 < total →
        nextDisabled (pageChangeSkip (totalPages total limit) limit) limit total = true) := by
  refine ⟨rfl, currentPage_pageChangeSkip n limit hl hn, le_totalPages_mul total limit hl,
    fun m hm => totalPages_le_of_le total limit m hl hm, fun h0 => ?_, ?_, fun ht => ?_⟩
  · subst h0
    refine ⟨totalPages_zero limit hl, ?_⟩
    simp [showPagination, totalPages_zero limit hl]
  · simp [prevDisabled, pageChangeSkip, currentPage]
  · have hp := totalPages_pos total limit hl ht
    simp [nextDisabled, currentPage_pageChangeSkip (totalPages total limit) limit hl hp]

theorem explorer_pagination_contract_witness :
    currentPage (pageChangeSkip 3 20) 20 = 3
    ∧ (45 : Nat) ≤ totalPages 45 20 * 20 :=
  ⟨(explorer_pagination_contract 40 20 45 3 (by decide) (by decide)).2.1,
   (explorer_pagination_contract 40 20 45 3 (by decide) (by decide)).2.2.1⟩

/-- C5: a filter submission replaces the page filters with the submitted
ones, resets the pagination to skip 0 (page 1) and limit 20, and the fetch
issued for the submission carries the new filters with skip 0 and
limit 20, whatever pagination state the page was in before. -/
theorem filter_submit_resets_pagination (s : ExploreState) (newFilters : Option String) :
    (handleFilterChange s newFilters).1.filters = newFilters
    ∧ (handleFilterChange s newFilters).1.pagination = { skip := 0, limit := 20 }
    ∧ (handleFilterChange s newFilters).2 = { name := newFilters, skip := 0, limit := 20 }
    ∧ currentPage (handleFilterChange s newFilters).1.pagination.skip
        (handleFilterChange s newFilters).1.pagination.limit = 1 :=
  ⟨rfl, rfl, rfl, by simp [handleFilterChange, currentPage]⟩

/-- C6: the submitted filter carries the trimmed input when trimming
leaves it non-empty; an input that trims to the empty string — in
particular an all-whitespace input — emits the empty filter, and the
explicit clear resets the local text and emits the empty filter. -/
theorem filter_emits_trimmed (t : String) :
    (jsTrim t = "" → handleSearch t = none)
    ∧ (jsTrim t ≠ "" → handleSearch t = some (jsTrim t))
    ∧ ((∀ c ∈ t.data, c.isWhitespace = true) → handleSearch t = none)
    ∧ handleClear = (none, "") := by
  refine ⟨fun h => ?_, fun h => ?_, fun h => ?_, rfl⟩
  · simp [handleSearch, h]
  · simp [handleSearch, h]
  · have hd : t.data.dropWhile Char.isWhitespace = [] :=
      List.dropWhile_eq_nil_iff.mpr h
    have ht : jsTrim t = "" := by simp [jsTrim, hd]
    simp [handleSearch, ht]

theorem filter_emits_trimmed_witness :
    handleSearch "  Margit  " = some "Margit" ∧ handleSearch "   " = none := by
  constructor
  · have h := (filter_emits_trimmed "  Margit  ").2.1 (by decide)
    rw [show jsTrim "  Margit  " = "Margit" by decide] at h
    exact h
  · exact (filter_emits_trimmed "   ").1 (by decide)

/-- C7: if any of the five dashboard requests rejects, the joined
operation rejects and the page renders the single error view — which
carries no KPI cards, charts or carousels; if all five succeed, the four
KPI counts are taken directly from the respective total fields and the
content view shows them. -/
theorem dashboard_all_or_nothing {ε : Type}
    (w : Except ε (PageEnvelope Weapon)) (b : Except ε (PageEnvelope Boss))
    (a : Except ε (PageEnvelope Armor)) (c : Except ε (PageEnvelope ClassDef))
    (ws : Except ε WeaponStats)
    (wp : PageEnvelope Weapon) (bp : PageEnvelope Boss) (ap : PageEnvelope Armor)
    (cp : PageEnvelope ClassDef) (sp : WeaponStats) :
    ((rejected w = true ∨ rejected b = true ∨ rejected a = true
        ∨ rejected c = true ∨ rejected ws = true) →
      rejected (fetchDashboardData w b a c ws) = true
      ∧ isErrorView (renderDashboard
          (execute initialState (fetchDashboardData w b a c ws))) = true)
    ∧ fetchDashboardData (Except.ok wp : Except ε (PageEnvelope Weapon))
        (Except.ok bp) (Except.ok ap) (Except.ok cp) (Except.ok sp)
      = Except.ok { totalWeapons := wp.total, totalBosses := bp.total,
                    totalArmors := ap.total, totalClasses := cp.total,
                    bosses := bp.items, weaponStats := sp }
    ∧ renderDashboard (execute initialState
        (fetchDashboardData (Except.ok wp : Except ε (PageEnvelope Weapon))
          (Except.ok bp) (Except.ok ap) (Except.ok cp) (Except.ok sp)))
      = DashboardView.content
          [("Total de Armas", wp.total), ("Total de Jefes", bp.total),
           ("Total de Armaduras", ap.total), ("Total de Clases", cp.total)]
          true true := by
  refine ⟨fun h => ?_, rfl, rfl⟩
  cases w with
  | error e => exact ⟨rfl, rfl⟩
  | ok wv =>
    simp only [rejected, false_or] at h
    cases b with
    | error e => exact ⟨rfl, rfl⟩
    | ok bv =>
      simp only [rejected, false_or] at h
      cases a with
      | error e => exact ⟨rfl, rfl⟩
      | ok av =>
        simp only [rejected, false_or] at h
        cases c with
        | error e => exact ⟨rfl, rfl⟩
        | ok cv =>
          simp only [rejected, false_or] at h
          cases ws with
          | error e => exact ⟨rfl, rfl⟩
          | ok wsv => simp [rejected] at h

theorem dashboard_all_or_nothing_witness :
    rejected (fetchDashboardData (Except.ok (⟨[], 10⟩ : PageEnvelope Weapon))
        (Except.ok (⟨[], 5⟩ : PageEnvelope Boss))
        (Except.error "network down")
        (Except.ok (⟨[], 3⟩ : PageEnvelope ClassDef))
        (Except.ok (⟨[]⟩ : WeaponStats))) = true
    ∧ isErrorView (renderDashboard (execute initialState
        (fetchDashboardData (Except.ok (⟨[], 10⟩ : PageEnvelope Weapon))
          (Except.ok (⟨[], 5⟩ : PageEnvelope Boss))
          (Except.error "network down")
          (Except.ok (⟨[], 3⟩ : PageEnvelope ClassDef))
          (Except.ok (⟨[]⟩ : WeaponStats))))) = true :=
  (dashboard_all_or_nothing (Except.ok ⟨[], 10⟩) (Except.ok ⟨[], 5⟩)
      (Except.error "network down") (Except.ok ⟨[], 3⟩) (Except.ok ⟨[]⟩)
      ⟨[], 10⟩ ⟨[], 5⟩ ⟨[], 7⟩ ⟨[], 3⟩ ⟨[]⟩).1
    (Or.inr (Or.inr (Or.inl rfl)))

/-- C8 (counterexample): with the configuration value absent, module
initialization of the HTTP client still succeeds — the client is created
with no base URL at all — while the spec-modelled fail-fast contract
rejects the same input. -/
theorem api_absent_config_does_not_fail :
    initApi none = Except.ok { baseURL := none, contentType := "application/json" }
    ∧ rejected (createApiSpec none) = true :=
  ⟨rfl, rfl⟩

/-- C8 (amended): the base URL is read from the process-wide configuration
once at module initialization into an immutable client constant that
carries exactly the configured value; an absent value does not fail fast —
initialization succeeds and the client is created with an absent base URL
(no default substituted). -/
theorem api_base_url_read_once (env : Option String) :
    initApi env = Except.ok (createApi env)
    ∧ (createApi env).baseURL = env
    ∧ (createApi env).contentType = "application/json"
    ∧ (createApi none).baseURL = none :=
  ⟨rfl, rfl, rfl, rfl⟩
